import Mathlib

/-!
Verification of the d2calc interpreter (pastelmind/d2calc) against its
specification. The JavaScript sources are shallowly embedded: machine
integers become `Int` with explicit reduction modulo 2 ^ 32 where the code
wraps, strings become `String`/`List Char`, thrown exceptions become
`Except`, and JavaScript objects used as lookup tables become association
lists (own-property lookup is exactly association-list lookup, because the
source guards every access with `Object.prototype.hasOwnProperty`).

Embedded components and their sources:
- `toInt32`, `parseInt32`, `isInt32` from `src/int32.js`;
- `tokenize` and its helpers from `src/lexer.js` (the number-token value
  is computed with `parseInt32` as the released lexer and its test suite
  require; the stale lexer revision kept in the repository snapshot calls
  `parseInt` there, which is recorded by `decimalValue` below);
- the precedence-climbing parser (`parse`, `parseExpression`,
  `parseUnaryExpression`, `parseConditionalExpression`,
  `parsePrimaryExpression`, `parseFunctionCallArgumentList`,
  `finishParsingReferenceCall`) from the revision of `src/parser.js` kept
  as `unnamed/part_008`;
- the evaluator (`interpretExpression`, `interpretBinaryOp`, `interpret`)
  from `src/interpreter.js`.
-/

namespace D2Calc

set_option maxRecDepth 16384

/-- Error taxonomy of the library, flattened into one sum. `synErr` stands
for `D2FSyntaxError` (also used for the plain `Error`s thrown by the older
lexer/parser revisions), `interpErr` for `D2FInterpreterError`,
`internalErr` for `D2CalcInternalError`, `externalErr` for an error thrown
by a caller-supplied callback and re-raised with added context, `typeErr`
for the JavaScript `TypeError` raised when the parser dereferences an
`undefined` token, and `outOfFuel` is an artifact of the fuelled embedding
of the source's loops (unreachable for the fuel amounts used, since every
iteration consumes at least one character or token). -/
inductive Err where
  | synErr (message : String)
  | interpErr (message : String)
  | internalErr (message : String)
  | externalErr (message : String)
  | typeErr (message : String)
  | outOfFuel
deriving DecidableEq

/-- Decidable equality of `Except` results, so that concrete runs of the
embedded functions can be checked by `decide`. -/
instance {ε α : Type} [DecidableEq ε] [DecidableEq α] : DecidableEq (Except ε α)
  | Except.error e₁, Except.error e₂ => decidable_of_iff (e₁ = e₂) (by simp)
  | Except.error _, Except.ok _ => isFalse (by simp)
  | Except.ok _, Except.error _ => isFalse (by simp)
  | Except.ok a₁, Except.ok a₂ => decidable_of_iff (a₁ = a₂) (by simp)

/-- Value of a decimal digit string, most significant digit first. This is
the exact mathematical value JavaScript's `Number(...)`/`parseInt(...)`
return for strings of decimal digits that fit in the 53-bit mantissa
(`src/int32.js` feeds `Number` chunks of at most 15 digits, and
`src/lexer.js:74` of the stale pre-0.1.1 lexer revision feeds `parseInt`
the whole digit run). -/
def decimalValue (cs : List Char) : Int :=
  cs.foldl (fun acc c => 10 * acc + ((c.toNat : Int) - 48)) 0

/-- Embeds `toInt32` of `src/int32.js`: JavaScript `num | 0`, i.e. the
standard `ToInt32` conversion, on integer input: reduce modulo 2 ^ 32 and
reinterpret the result as a signed 32-bit value. -/
def toInt32 (n : Int) : Int :=
  (n + 2147483648) % 4294967296 - 2147483648

/-- Embeds `isInt32` of `src/int32.js`: `value === toInt32(value)`. -/
def isInt32 (n : Int) : Bool :=
  n == toInt32 n

/-- Embeds JavaScript `Math.imul(a, b)`: both operands are converted with
`ToInt32`, multiplied, and the low 32 bits of the product are returned as
a signed value. -/
def imul (a b : Int) : Int :=
  toInt32 (toInt32 a * toInt32 b)

/-- Length of the first chunk taken by `parseInt32` of `src/int32.js`:
`num.length % 15 || 15` (the remainder, or a full 15 when the length is a
multiple of 15, `0` being falsy in JavaScript). -/
def firstChunkLength (len : Nat) : Nat :=
  if len % 15 = 0 then 15 else len % 15

/-- The `while` loop of `parseInt32` (`src/int32.js:24-27`), which runs
once per remaining 15-digit chunk: `value = Math.imul(value, 10^15);
value += Number(chunk)`. `k` is the number of iterations left. -/
def parseInt32Go : Nat → Int → List Char → Int
  | 0, value, _ => value
  | k + 1, value, cs =>
    parseInt32Go k (imul value 1000000000000000 + decimalValue (cs.take 15)) (cs.drop 15)

/-- Embeds `parseInt32` of `src/int32.js`: split the digit string into a
first chunk of `length % 15 || 15` digits followed by 15-digit chunks,
fold them left to right with a wrapping multiply by 10 ^ 15 plus the chunk
value, and apply the final `| 0` truncation. -/
def parseInt32 (num : String) : Int :=
  toInt32
    (parseInt32Go ((num.data.length - firstChunkLength num.data.length) / 15)
      (decimalValue (num.data.take (firstChunkLength num.data.length)))
      (num.data.drop (firstChunkLength num.data.length)))

/-- Token type of `src/lexer.js`. Each constructor mirrors a token class
(`NumberToken`, `IdentifierToken`, `ReferenceToken`, `OperatorToken`,
`OpeningParenthesisToken`, `ClosingParenthesisToken`, `CommaToken`,
`DotCodeToken`, `QuestionMarkToken`, `ColonToken`); the stale lexer
revision splits `operator` into additive/multiplicative/comparison
classes carrying the same position and operator string. -/
inductive Token where
  | number (position : Nat) (rawValue : String) (number : Int)
  | identifier (position : Nat) (rawValue : String)
  | reference (position : Nat) (rawValue : String) (reference : String)
  | operator (position : Nat) (operator : String)
  | openParen (position : Nat)
  | closeParen (position : Nat)
  | comma (position : Nat)
  | dotCode (position : Nat) (rawValue : String) (code : String)
  | questionMark (position : Nat)
  | colon (position : Nat)
deriving DecidableEq

/-- Raw source text of a token (the `rawValue` field of the `Token`
classes); `tokenize` advances by its length. -/
def Token.rawValue : Token → String
  | .number _ raw _ => raw
  | .identifier _ raw => raw
  | .reference _ raw _ => raw
  | .operator _ op => op
  | .openParen _ => "("
  | .closeParen _ => ")"
  | .comma _ => ","
  | .dotCode _ raw _ => raw
  | .questionMark _ => "?"
  | .colon _ => ":"

/-- Source position of a token (the `position` field). -/
def Token.position : Token → Nat
  | .number pos _ _ => pos
  | .identifier pos _ => pos
  | .reference pos _ _ => pos
  | .operator pos _ => pos
  | .openParen pos => pos
  | .closeParen pos => pos
  | .comma pos => pos
  | .dotCode pos _ _ => pos
  | .questionMark pos => pos
  | .colon pos => pos

/-- The whitespace class of the lexer's `/\s+/y` skip rule, restricted to
the ASCII whitespace characters (the JavaScript class also admits some
Unicode space characters, which never occur in the inputs considered
here). -/
def isWhitespaceChar (c : Char) : Bool :=
  c == ' ' || c == '\t' || c == '\n' || c == '\r' || c == '\x0b' || c == '\x0c'

/-- Word characters of the `\w` class used after the leading letter of an
identifier: letters, digits and underscore. -/
def isWordChar (c : Char) : Bool :=
  c.isAlphanum || c == '_'

/-- Embeds `matchTokenAt` of `src/lexer.js` on the remaining characters
`cs` at position `pos`: the single-character `switch`, then the comparison
operators (`<=?`, `>=?`, `==`, `!=`), then a digit run, then an
identifier, then a quoted reference, then a dot-code. Returns `none` when
no token starts here (an invalid character or whitespace); throws when a
reference misses its closing quote or a dot is not followed by an
identifier, as `matchReference` and `matchDotCode` do. The value of a
number token is `parseInt32` of the digit run, the chunked Int32 parse
used by the released lexer and asserted by `test/lexer.test.js` (the stale
lexer revision in the snapshot calls JavaScript `parseInt` instead, i.e.
`decimalValue`). -/
def matchTokenAt (cs : List Char) (pos : Nat) : Except Err (Option Token) :=
  match cs with
  | [] => Except.ok none
  | c :: rest =>
    if c = '(' then Except.ok (some (Token.openParen pos))
    else if c = ')' then Except.ok (some (Token.closeParen pos))
    else if c = '?' then Except.ok (some (Token.questionMark pos))
    else if c = ':' then Except.ok (some (Token.colon pos))
    else if c = ',' then Except.ok (some (Token.comma pos))
    else if c = '+' then Except.ok (some (Token.operator pos "+"))
    else if c = '-' then Except.ok (some (Token.operator pos "-"))
    else if c = '*' then Except.ok (some (Token.operator pos "*"))
    else if c = '/' then Except.ok (some (Token.operator pos "/"))
    else if c = '<' then
      match rest with
      | '=' :: _ => Except.ok (some (Token.operator pos "<="))
      | _ => Except.ok (some (Token.operator pos "<"))
    else if c = '>' then
      match rest with
      | '=' :: _ => Except.ok (some (Token.operator pos ">="))
      | _ => Except.ok (some (Token.operator pos ">"))
    else if c = '=' then
      match rest with
      | '=' :: _ => Except.ok (some (Token.operator pos "=="))
      | _ => Except.ok none
    else if c = '!' then
      match rest with
      | '=' :: _ => Except.ok (some (Token.operator pos "!="))
      | _ => Except.ok none
    else if c.isDigit then
      Except.ok (some (Token.number pos (String.mk (c :: rest.takeWhile Char.isDigit))
        (parseInt32 (String.mk (c :: rest.takeWhile Char.isDigit)))))
    else if c.isAlpha then
      Except.ok (some (Token.identifier pos (String.mk (c :: rest.takeWhile isWordChar))))
    else if c = '\'' then
      if (rest.takeWhile (fun ch => ch ≠ '\'')).length = rest.length then
        Except.error (Err.synErr
          ("No closing single-quote (\x27) character for reference at index " ++ toString pos))
      else
        Except.ok (some (Token.reference pos
          (String.mk ('\'' :: (rest.takeWhile (fun ch => ch ≠ '\'') ++ ['\''])))
          (String.mk (rest.takeWhile (fun ch => ch ≠ '\'')))))
    else if c = '.' then
      match rest with
      | c2 :: rest2 =>
        if c2.isAlpha then
          Except.ok (some (Token.dotCode pos
            (String.mk ('.' :: c2 :: rest2.takeWhile isWordChar))
            (String.mk (c2 :: rest2.takeWhile isWordChar))))
        else
          Except.error (Err.synErr
            ("Dot (.) is not followed by a valid identifier at index " ++ toString pos))
      | [] =>
        Except.error (Err.synErr
          ("Dot (.) is not followed by a valid identifier at index " ++ toString pos))
    else Except.ok none

/-- The message of the `Cannot parse token` error thrown by `tokenize`:
index, then up to ten characters of the remaining input, with `...` when
more follows. -/
def cannotParseMessage (text : String) (pos : Nat) : String :=
  "Cannot parse token at index " ++ toString pos ++ " of input: \"" ++
    String.mk ((text.data.drop pos).take 10) ++
    (if pos + 10 < text.length then "..." else "") ++ "\""

/-- The `while` loop of `tokenize` (`src/lexer.js:14-31`): at each
position, push a matched token and advance by its raw length, otherwise
skip a nonempty whitespace run, otherwise throw `Cannot parse token`. The
fuel argument only bounds the iteration count; `tokenize` passes enough
fuel that it never runs out, since every iteration consumes at least one
character. -/
def tokenizeLoop : Nat → String → Nat → List Char → Except Err (List Token)
  | _, _, _, [] => Except.ok []
  | 0, _, _, _ :: _ => Except.error Err.outOfFuel
  | fuel + 1, text, pos, c :: cs =>
    match matchTokenAt (c :: cs) pos with
    | Except.error e => Except.error e
    | Except.ok (some t) =>
      match tokenizeLoop fuel text (pos + t.rawValue.length)
          ((c :: cs).drop t.rawValue.length) with
      | Except.error e => Except.error e
      | Except.ok ts => Except.ok (t :: ts)
    | Except.ok none =>
      if ((c :: cs).takeWhile isWhitespaceChar).length ≠ 0 then
        tokenizeLoop fuel text (pos + ((c :: cs).takeWhile isWhitespaceChar).length)
          ((c :: cs).drop ((c :: cs).takeWhile isWhitespaceChar).length)
      else
        Except.error (Err.synErr (cannotParseMessage text pos))

/-- Embeds `tokenize` of `src/lexer.js`. -/
def tokenize (text : String) : Except Err (List Token) :=
  tokenizeLoop (text.length + 1) text 0 text.data

/-- AST node type of `src/parser.js`. One constructor per `Ast*` class.
The source's `AstRefFunctionCall` stores one `reference` field of type
`string | AstPrimaryExpression`; the embedding splits that union into the
two constructors `refFunctionCall` (quoted reference literal) and
`refFunctionCallExpr` (expression reference), matching the
`typeof reference === "string"` dispatch in the interpreter.
`parenthesized` is `AstParenthesizedExpression`, produced by the parser
revision kept as `unnamed/part_008`; the released parser returns the
inner expression unwrapped, so evaluation treats the node as transparent. -/
inductive Ast where
  | number (value : Int)
  | identifier (name : String)
  | binaryOp (operator : String) (left right : Ast)
  | unaryOp (operator : String) (expression : Ast)
  | conditional (condition trueExpression falseExpression : Ast)
  | functionCall (functionName : String) (arg1 arg2 : Ast)
  | refFunctionCall (functionName : String) (reference : String)
      (code1 : String) (code2 : Option String)
  | refFunctionCallExpr (functionName : String) (reference : Ast)
      (code1 : String) (code2 : Option String)
  | parenthesized (expression : Ast)
deriving DecidableEq

/-- Mirrors `instanceof AstPrimaryExpression`: the classes extending
`AstPrimaryExpression` are `AstNumber`, `AstIdentifier`,
`AstFunctionCall`, `AstRefFunctionCall` and
`AstParenthesizedExpression`. -/
def Ast.isPrimaryExpression : Ast → Bool
  | .number _ => true
  | .identifier _ => true
  | .functionCall _ _ _ => true
  | .refFunctionCall _ _ _ _ => true
  | .refFunctionCallExpr _ _ _ _ => true
  | .parenthesized _ => true
  | .binaryOp _ _ _ => false
  | .unaryOp _ _ => false
  | .conditional _ _ _ => false

/-- The fixed operator precedence table `BINARY_OPERATOR_PRECEDENCE` of
the parser: multiplicative 2, additive 1, comparison 0. -/
def BINARY_OPERATOR_PRECEDENCE (operator : String) : Option Nat :=
  match operator with
  | "*" => some 2
  | "/" => some 2
  | "+" => some 1
  | "-" => some 1
  | "==" => some 0
  | "!=" => some 0
  | "<" => some 0
  | ">" => some 0
  | "<=" => some 0
  | ">=" => some 0
  | _ => none

/-- Message of the `Unexpected token` errors thrown by the parser. -/
def unexpectedTokenMessage (t : Token) : String :=
  "Unexpected token \"" ++ t.rawValue ++ "\" at position " ++ toString t.position

/-- Message of the `Unexpected end of input` errors thrown by
`assertIsNotEndOfInput`, with the caller-supplied context appended. -/
def endOfInputMessage (extra : String) : String :=
  "Unexpected end of input" ++ extra

/-- Message of the `Disallowed expression` error raised when the first
argument of a reference-function call is not a primary expression; it
cites the position of the expression's first token. -/
def disallowedExpressionMessage (pos : Nat) (funcName : String) : String :=
  "Disallowed expression at position " ++ toString pos ++
    "; the first argument of the reference function \"" ++ funcName ++
    "\" must be a number, identifier, or an expression wrapped in parentheses (\"()\")"

/-- Embeds `finishParsingReferenceCall` of the `unnamed/part_008` parser:
after the reference operand and first dot-code, accept either `)` or a
second dot-code followed by `)`. `ref` carries the source's
`string | AstPrimaryExpression` union. -/
def finishParsingReferenceCall (ts : List Token) (funcPos : Nat) (funcName : String)
    (ref : String ⊕ Ast) (dotCode1 : String) : Except Err (Ast × List Token) :=
  match ts with
  | [] => Except.error (Err.synErr (endOfInputMessage
      ("; expected a closing parenthesis (\")\") or second dot code for reference function \"" ++
        funcName ++ "\" at position " ++ toString funcPos)))
  | Token.closeParen _ :: ts₁ =>
    match ref with
    | Sum.inl s => Except.ok (Ast.refFunctionCall funcName s dotCode1 none, ts₁)
    | Sum.inr e => Except.ok (Ast.refFunctionCallExpr funcName e dotCode1 none, ts₁)
  | Token.dotCode _ _ code2 :: ts₁ =>
    match ts₁ with
    | Token.closeParen _ :: ts₂ =>
      match ref with
      | Sum.inl s => Except.ok (Ast.refFunctionCall funcName s dotCode1 (some code2), ts₂)
      | Sum.inr e => Except.ok (Ast.refFunctionCallExpr funcName e dotCode1 (some code2), ts₂)
    | tok :: _ => Except.error (Err.synErr (unexpectedTokenMessage tok))
    | [] => Except.error (Err.synErr (endOfInputMessage
        ("; expected a closing parenthesis (\")\") for reference function \"" ++
          funcName ++ "\" at position " ++ toString funcPos)))
  | tok :: _ => Except.error (Err.synErr (unexpectedTokenMessage tok))

mutual

/-- Embeds `parseExpression` of the `unnamed/part_008` parser:
precedence-climbing entry, parsing a unary expression and then folding
binary operators in `parseExpressionLoop` (the `while` loop of the
source). The fuel only bounds recursion depth; `parse` supplies enough. -/
def parseExpression : Nat → List Token → Nat → Except Err (Ast × List Token)
  | 0, _, _ => Except.error Err.outOfFuel
  | fuel + 1, ts, minPrec =>
    match parseUnaryExpression fuel ts with
    | Except.error e => Except.error e
    | Except.ok (expr, ts₁) => parseExpressionLoop fuel expr ts₁ minPrec

/-- The `while (operator)` loop inside `parseExpression`: while the next
token is an operator whose table precedence is at least `minPrec`,
consume it, parse the right side with minimum precedence one higher, and
fold into a left-associated `binaryOp`. -/
def parseExpressionLoop : Nat → Ast → List Token → Nat → Except Err (Ast × List Token)
  | 0, _, _, _ => Except.error Err.outOfFuel
  | fuel + 1, expr, ts, minPrec =>
    match ts with
    | Token.operator _ op :: ts₁ =>
      match BINARY_OPERATOR_PRECEDENCE op with
      | none => Except.error (Err.synErr
          ("No known precedence for operator \"" ++ op ++ "\""))
      | some prec =>
        if prec < minPrec then Except.ok (expr, ts)
        else
          match parseExpression fuel ts₁ (prec + 1) with
          | Except.error e => Except.error e
          | Except.ok (right, ts₂) =>
            parseExpressionLoop fuel (Ast.binaryOp op expr right) ts₂ minPrec
    | _ => Except.ok (expr, ts)

/-- Embeds `parseUnaryExpression`: an optional leading `-` wraps the next
conditional-level expression in a `unaryOp`. -/
def parseUnaryExpression : Nat → List Token → Except Err (Ast × List Token)
  | 0, _ => Except.error Err.outOfFuel
  | fuel + 1, ts =>
    match ts with
    | Token.operator _ "-" :: ts₁ =>
      match parseConditionalExpression fuel ts₁ with
      | Except.error e => Except.error e
      | Except.ok (inner, ts₂) => Except.ok (Ast.unaryOp "-" inner, ts₂)
    | _ => parseConditionalExpression fuel ts

/-- Embeds `parseConditionalExpression`: parse one primary expression,
then fold `? primary : primary` groups in `parseConditionalLoop`. -/
def parseConditionalExpression : Nat → List Token → Except Err (Ast × List Token)
  | 0, _ => Except.error Err.outOfFuel
  | fuel + 1, ts =>
    match parsePrimaryExpression fuel ts with
    | Except.error e => Except.error e
    | Except.ok (cond, ts₁) => parseConditionalLoop fuel cond ts₁

/-- The `while (questionToken)` loop inside `parseConditionalExpression`:
left-associative chaining, folding the previous result in as the new
condition. -/
def parseConditionalLoop : Nat → Ast → List Token → Except Err (Ast × List Token)
  | 0, _, _ => Except.error Err.outOfFuel
  | fuel + 1, cond, ts =>
    match ts with
    | Token.questionMark qpos :: ts₁ =>
      match parsePrimaryExpression fuel ts₁ with
      | Except.error e => Except.error e
      | Except.ok (trueExpr, ts₂) =>
        match ts₂ with
        | Token.colon _ :: ts₃ =>
          match parsePrimaryExpression fuel ts₃ with
          | Except.error e => Except.error e
          | Except.ok (falseExpr, ts₄) =>
            parseConditionalLoop fuel (Ast.conditional cond trueExpr falseExpr) ts₄
        | tok :: _ => Except.error (Err.synErr (unexpectedTokenMessage tok))
        | [] => Except.error (Err.synErr (endOfInputMessage
            ("; expected a colon (:) for conditional expression \"?\" at position " ++
              toString qpos)))
    | _ => Except.ok (cond, ts)

/-- Embeds `parsePrimaryExpression`: a number, an identifier (possibly
opening a call argument list), or a parenthesized expression. When the
token stream is exhausted the source dereferences `undefined` in its
error template and crashes with a `TypeError`; that path is `typeErr`. -/
def parsePrimaryExpression : Nat → List Token → Except Err (Ast × List Token)
  | 0, _ => Except.error Err.outOfFuel
  | fuel + 1, ts =>
    match ts with
    | Token.number _ _ n :: ts₁ => Except.ok (Ast.number n, ts₁)
    | Token.identifier pos raw :: ts₁ => parseFunctionCallArgumentList fuel ts₁ pos raw
    | Token.openParen opos :: ts₁ =>
      match parseExpression fuel ts₁ 0 with
      | Except.error e => Except.error e
      | Except.ok (inner, ts₂) =>
        match ts₂ with
        | Token.closeParen _ :: ts₃ => Except.ok (Ast.parenthesized inner, ts₃)
        | tok :: _ => Except.error (Err.synErr (unexpectedTokenMessage tok))
        | [] => Except.error (Err.synErr (endOfInputMessage
            ("; expected a \")\" that matches the \"(\" at position " ++ toString opos)))
    | tok :: _ => Except.error (Err.synErr (unexpectedTokenMessage tok))
    | [] => Except.error (Err.typeErr
        "Cannot read property \x27rawValue\x27 of undefined")

/-- Embeds `parseFunctionCallArgumentList` of the `unnamed/part_008`
parser, entered after an identifier token (`funcPos`, `funcName`). With
no following `(` the identifier stands alone. Otherwise: a reference
literal first argument makes a reference-function call; else a full
expression is parsed, and a following `,` makes a two-argument function
call while a following dot-code makes a reference-function call whose
first argument must satisfy `instanceof AstPrimaryExpression`, the
`Disallowed expression` error citing the first token's position
otherwise. -/
def parseFunctionCallArgumentList : Nat → List Token → Nat → String →
    Except Err (Ast × List Token)
  | 0, _, _, _ => Except.error Err.outOfFuel
  | fuel + 1, ts, funcPos, funcName =>
    match ts with
    | Token.openParen _ :: ts₁ =>
      match ts₁ with
      | [] => Except.error (Err.synErr (endOfInputMessage
          ("; expected first argument for function \"" ++ funcName ++
            "\" at position " ++ toString funcPos)))
      | Token.reference _ _ refStr :: ts₂ =>
        match ts₂ with
        | Token.dotCode _ _ code :: ts₃ =>
          finishParsingReferenceCall ts₃ funcPos funcName (Sum.inl refStr) code
        | tok :: _ => Except.error (Err.synErr (unexpectedTokenMessage tok))
        | [] => Except.error (Err.synErr (endOfInputMessage
            ("; expected first dot code for reference function \"" ++ funcName ++
              "\" at position " ++ toString funcPos)))
      | firstArgTok :: _ =>
        match parseExpression fuel ts₁ 0 with
        | Except.error e => Except.error e
        | Except.ok (argExpr1, ts₂) =>
          match ts₂ with
          | Token.comma _ :: ts₃ =>
            match parseExpression fuel ts₃ 0 with
            | Except.error e => Except.error e
            | Except.ok (argExpr2, ts₄) =>
              match ts₄ with
              | Token.closeParen _ :: ts₅ =>
                Except.ok (Ast.functionCall funcName argExpr1 argExpr2, ts₅)
              | tok :: _ => Except.error (Err.synErr (unexpectedTokenMessage tok))
              | [] => Except.error (Err.synErr (endOfInputMessage
                  ("; expected a closing parenthesis for function \"" ++ funcName ++
                    "\" at position " ++ toString funcPos)))
          | Token.dotCode _ _ code :: ts₃ =>
            if argExpr1.isPrimaryExpression then
              finishParsingReferenceCall ts₃ funcPos funcName (Sum.inr argExpr1) code
            else
              Except.error (Err.synErr
                (disallowedExpressionMessage firstArgTok.position funcName))
          | tok :: _ => Except.error (Err.synErr (unexpectedTokenMessage tok))
          | [] => Except.error (Err.synErr (endOfInputMessage
              ("; expected a comma (,) or dot-code (.code) for function \"" ++ funcName ++
                "\" at position " ++ toString funcPos)))
    | _ => Except.ok (Ast.identifier funcName, ts)

end

/-- Embeds `parse`: tokenize, parse one expression, and reject any
leftover token. The fuel `8 * tokens.length + 8` bounds the mutual
recursion depth, which consumes at least one token every eight nested
calls, so it is never exhausted. -/
def parse (text : String) : Except Err Ast :=
  match tokenize text with
  | Except.error e => Except.error e
  | Except.ok tokens =>
    match parseExpression (8 * tokens.length + 8) tokens 0 with
    | Except.error e => Except.error e
    | Except.ok (expression, leftover) =>
      match leftover with
      | [] => Except.ok expression
      | tok :: _ => Except.error (Err.synErr (unexpectedTokenMessage tok))

/-- Reference value passed to a reference function: the source passes
either the literal string of a quoted reference or the `Int32` value of
the evaluated reference expression. -/
inductive RefValue where
  | str (value : String)
  | num (value : Int)

/-- An entry of the `identifiers` environment table: either a constant
number or a zero-argument provider. A provider may throw, which the
embedding renders as `Except.error` with the thrown message. -/
inductive IdentifierValue where
  | num (value : Int)
  | func (provider : Unit → Except String Int)

/-- The `InterpreterEnvironment` record of `src/interpreter.js`.
JavaScript objects used as lookup tables become association lists: the
source reads a table entry only after
`Object.prototype.hasOwnProperty.call(table, name)`, so exactly the
caller-registered bindings are visible, which is exactly association-list
lookup. Caller-supplied functions may throw, rendered as
`Except.error`. -/
structure InterpreterEnvironment where
  identifiers : List (String × IdentifierValue)
  functions : List (String × (Int → Int → Except String Int))
  referenceFunctions : List (String × (RefValue → String → Except String Int))
  referenceFunctions2Q : List (String × (RefValue → String → String → Except String Int))

/-- Own-property lookup in an environment table: the source's
`Object.prototype.hasOwnProperty.call(table, name) ? table[name] :
undefined` idiom, under which inherited members of the container
(`hasOwnProperty`, `toString`, `valueOf`, ...) are never visible. -/
def lookupOwn {α : Type} (table : List (String × α)) (name : String) : Option α :=
  List.lookup name table

/-- The environment default `{}` of `interpret(text, environment = {})`:
all four tables empty. -/
def emptyEnvironment : InterpreterEnvironment :=
  InterpreterEnvironment.mk [] [] [] []

/-- Test environment registering one identifier `boom`, a provider that
always throws; used to observe which subexpressions are evaluated. -/
def boomEnvironment : InterpreterEnvironment :=
  InterpreterEnvironment.mk
    [("boom", IdentifierValue.func (fun _ => Except.error "boom"))] [] [] []

/-- The operator `switch` of `interpretBinaryOp`
(`src/interpreter.js:149-178`), applied after both operands have been
evaluated. `+` and `-` wrap with `toInt32`, `*` is `Math.imul`, `/`
returns 0 for a zero divisor and otherwise `Math.trunc(l / r)` — exact
truncated division for the operand magnitudes reachable here — with no
`toInt32` applied; comparisons yield 1 or 0. -/
def interpretBinaryOp (operator : String) (leftValue rightValue : Int) : Except Err Int :=
  match operator with
  | "+" => Except.ok (toInt32 (leftValue + rightValue))
  | "-" => Except.ok (toInt32 (leftValue - rightValue))
  | "*" => Except.ok (imul leftValue rightValue)
  | "/" =>
    if rightValue = 0 then Except.ok 0
    else Except.ok (Int.tdiv leftValue rightValue)
  | "==" => Except.ok (if leftValue = rightValue then 1 else 0)
  | "!=" => Except.ok (if leftValue ≠ rightValue then 1 else 0)
  | "<" => Except.ok (if leftValue < rightValue then 1 else 0)
  | ">" => Except.ok (if leftValue > rightValue then 1 else 0)
  | "<=" => Except.ok (if leftValue ≤ rightValue then 1 else 0)
  | ">=" => Except.ok (if leftValue ≥ rightValue then 1 else 0)
  | _ => Except.error (Err.internalErr ("Unknown operator: \"" ++ operator ++ "\""))

/-- Wraps a call to a caller-supplied single-qualifier reference function:
the return value is coerced with `toInt32`; a thrown error is re-raised
with the context appended by `src/interpreter.js:270-277` (the source
template places the closing quote after the parenthesis). -/
def callReferenceFunction (functionName : String)
    (func : RefValue → String → Except String Int)
    (refValue : RefValue) (code1 : String) : Except Err Int :=
  match func refValue code1 with
  | Except.ok v => Except.ok (toInt32 v)
  | Except.error msg => Except.error (Err.externalErr
      (msg ++ " (caused while evaluating single-qualifier reference function \"" ++
        functionName ++ ")\""))

/-- Wraps a call to a caller-supplied double-qualifier reference function,
as `callReferenceFunction` for the two-qualifier branch. -/
def callReferenceFunction2Q (functionName : String)
    (func : RefValue → String → String → Except String Int)
    (refValue : RefValue) (code1 code2 : String) : Except Err Int :=
  match func refValue code1 code2 with
  | Except.ok v => Except.ok (toInt32 v)
  | Except.error msg => Except.error (Err.externalErr
      (msg ++ " (caused while evaluating double-qualifier reference function \"" ++
        functionName ++ ")\""))

/-- Embeds `interpretExpression` of `src/interpreter.js` with its helpers
`interpretFunctionCall`, `interpretIdentifier` and
`interpretRefFunctionCall` inlined at their call sites. Name lookups go
through `lookupOwn` and fail with the role-specific
`D2FInterpreterError` messages of the source; lookups happen before any
argument is evaluated, exactly as in the source. A number node returns
its value unchanged; unary `-` wraps with `toInt32`; a conditional
evaluates its condition and then only the selected branch. The
`parenthesized` case is transparent: the released parser returns the
inner expression unwrapped (the part_008 revision marks it with
`AstParenthesizedExpression` instead), so evaluating the marker node is
evaluating the inner expression. -/
def interpretExpression : Ast → InterpreterEnvironment → Except Err Int
  | Ast.binaryOp operator left right, env =>
    match interpretExpression left env with
    | Except.error e => Except.error e
    | Except.ok leftValue =>
      match interpretExpression right env with
      | Except.error e => Except.error e
      | Except.ok rightValue => interpretBinaryOp operator leftValue rightValue
  | Ast.conditional condition trueExpression falseExpression, env =>
    match interpretExpression condition env with
    | Except.error e => Except.error e
    | Except.ok conditionValue =>
      if conditionValue ≠ 0 then interpretExpression trueExpression env
      else interpretExpression falseExpression env
  | Ast.functionCall functionName arg1 arg2, env =>
    match lookupOwn env.functions functionName with
    | none => Except.error (Err.interpErr ("Unknown function: " ++ functionName))
    | some func =>
      match interpretExpression arg1 env with
      | Except.error e => Except.error e
      | Except.ok argValue1 =>
        match interpretExpression arg2 env with
        | Except.error e => Except.error e
        | Except.ok argValue2 =>
          match func argValue1 argValue2 with
          | Except.ok v => Except.ok (toInt32 v)
          | Except.error msg => Except.error (Err.externalErr
              (msg ++ " (caused while calling function \"" ++ functionName ++ ")\""))
  | Ast.identifier name, env =>
    match lookupOwn env.identifiers name with
    | none => Except.error (Err.interpErr ("Unknown identifier: " ++ name))
    | some (IdentifierValue.num v) => Except.ok (toInt32 v)
    | some (IdentifierValue.func provider) =>
      match provider () with
      | Except.ok v => Except.ok (toInt32 v)
      | Except.error msg => Except.error (Err.externalErr
          (msg ++ " (caused while evaluating identifier \"" ++ name ++ ")\""))
  | Ast.number value, _ => Except.ok value
  | Ast.refFunctionCall functionName reference code1 code2Opt, env =>
    match code2Opt with
    | none =>
      match lookupOwn env.referenceFunctions functionName with
      | none => Except.error (Err.interpErr
          ("Unknown single-qualifier reference function: " ++ functionName))
      | some func => callReferenceFunction functionName func (RefValue.str reference) code1
    | some code2 =>
      match lookupOwn env.referenceFunctions2Q functionName with
      | none => Except.error (Err.interpErr
          ("Unknown double-qualifier reference function: " ++ functionName))
      | some func =>
        callReferenceFunction2Q functionName func (RefValue.str reference) code1 code2
  | Ast.refFunctionCallExpr functionName reference code1 code2Opt, env =>
    match code2Opt with
    | none =>
      match lookupOwn env.referenceFunctions functionName with
      | none => Except.error (Err.interpErr
          ("Unknown single-qualifier reference function: " ++ functionName))
      | some func =>
        match interpretExpression reference env with
        | Except.error e => Except.error e
        | Except.ok refValue =>
          callReferenceFunction functionName func (RefValue.num refValue) code1
    | some code2 =>
      match lookupOwn env.referenceFunctions2Q functionName with
      | none => Except.error (Err.interpErr
          ("Unknown double-qualifier reference function: " ++ functionName))
      | some func =>
        match interpretExpression reference env with
        | Except.error e => Except.error e
        | Except.ok refValue =>
          callReferenceFunction2Q functionName func (RefValue.num refValue) code1 code2
  | Ast.unaryOp operator expression, env =>
    match operator with
    | "-" =>
      match interpretExpression expression env with
      | Except.error e => Except.error e
      | Except.ok v => Except.ok (toInt32 (-v))
    | _ => Except.error (Err.internalErr ("Unknown operator: \"" ++ operator ++ "\""))
  | Ast.parenthesized expression, env => interpretExpression expression env

/-- Embeds `interpret` of `src/interpreter.js`: parse, then evaluate. -/
def interpret (text : String) (environment : InterpreterEnvironment) : Except Err Int :=
  match parse text with
  | Except.error e => Except.error e
  | Except.ok expression => interpretExpression expression environment


theorem dvd_toInt32_sub (n : Int) : (4294967296 : Int) ∣ toInt32 n - n := by
  refine ⟨-((n + 2147483648) / 4294967296), ?_⟩
  have h := Int.emod_add_ediv (n + 2147483648) 4294967296
  unfold toInt32
  linarith

theorem toInt32_congr {a b : Int} (h : (4294967296 : Int) ∣ a - b) :
    toInt32 a = toInt32 b := by
  have hmod : a ≡ b [ZMOD 4294967296] := by
    refine Int.modEq_iff_dvd.mpr ?_
    have := Int.dvd_neg.mpr h
    simpa using this
  have h2 : (a + 2147483648) % 4294967296 = (b + 2147483648) % 4294967296 :=
    Int.ModEq.add_right 2147483648 hmod
  unfold toInt32
  omega

theorem imul_eq_toInt32_mul (a b : Int) : imul a b = toInt32 (a * b) := by
  unfold imul
  refine toInt32_congr ?_
  have ha := dvd_toInt32_sub a
  have hb := dvd_toInt32_sub b
  have key : toInt32 a * toInt32 b - a * b =
      (toInt32 a - a) * toInt32 b + a * (toInt32 b - b) := by ring
  rw [key]
  exact dvd_add (Dvd.dvd.mul_right ha _) (Dvd.dvd.mul_left hb _)

theorem decimalValue_shift (l : List Char) :
    ∀ a : Int,
      l.foldl (fun acc c => 10 * acc + ((c.toNat : Int) - 48)) a =
        a * 10 ^ l.length + decimalValue l := by
  induction l with
  | nil => intro a; simp [decimalValue]
  | cons c l ih =>
    intro a
    have h1 := ih (10 * a + ((c.toNat : Int) - 48))
    have h2 := ih (10 * 0 + ((c.toNat : Int) - 48))
    simp only [List.foldl_cons, decimalValue] at h1 h2 ⊢
    rw [h1, h2]
    simp only [List.length_cons, pow_succ]
    ring

theorem decimalValue_append (l₁ l₂ : List Char) :
    decimalValue (l₁ ++ l₂) =
      decimalValue l₁ * 10 ^ l₂.length + decimalValue l₂ := by
  unfold decimalValue
  rw [List.foldl_append]
  exact decimalValue_shift l₂ _

theorem parseInt32Go_spec :
    ∀ (k : Nat) (v : Int) (cs : List Char), cs.length = 15 * k →
      toInt32 (parseInt32Go k v cs) =
        toInt32 (v * 10 ^ cs.length + decimalValue cs) := by
  intro k
  induction k with
  | zero =>
    intro v cs h
    have : cs = [] := List.length_eq_zero.mp (by omega)
    subst this
    simp [parseInt32Go, decimalValue]
  | succ k ih =>
    intro v cs h
    have hdrop : (cs.drop 15).length = 15 * k := by
      rw [List.length_drop]; omega
    have htake : (cs.take 15).length = 15 := by
      rw [List.length_take]; omega
    have hsplit : decimalValue cs =
        decimalValue (cs.take 15) * 10 ^ (15 * k) + decimalValue (cs.drop 15) := by
      conv_lhs => rw [← List.take_append_drop 15 cs]
      rw [decimalValue_append, hdrop]
    rw [parseInt32Go, ih _ _ hdrop]
    refine toInt32_congr ?_
    rw [hsplit, hdrop]
    have hlen : cs.length = 15 * k + 15 := by omega
    rw [hlen]
    have hpow : (10 : Int) ^ (15 * k + 15) = 10 ^ (15 * k) * 1000000000000000 := by
      rw [pow_add]; norm_num
    have himul := imul_eq_toInt32_mul v 1000000000000000
    have hdvd : (4294967296 : Int) ∣
        toInt32 (v * 1000000000000000) - v * 1000000000000000 :=
      dvd_toInt32_sub _
    have key :
        (imul v 1000000000000000 + decimalValue (cs.take 15)) * 10 ^ (15 * k) +
            decimalValue (cs.drop 15) -
          (v * 10 ^ (15 * k + 15) +
            (decimalValue (cs.take 15) * 10 ^ (15 * k) + decimalValue (cs.drop 15))) =
        (toInt32 (v * 1000000000000000) - v * 1000000000000000) * 10 ^ (15 * k) := by
      rw [himul, hpow]; ring
    rw [key]
    exact Dvd.dvd.mul_right hdvd _

theorem parseInt32_eq_toInt32_decimalValue (num : String) :
    parseInt32 num = toInt32 (decimalValue num.data) := by
  unfold parseInt32
  have hmod : (num.data.length - firstChunkLength num.data.length) % 15 = 0 := by
    unfold firstChunkLength
    split <;> omega
  have hdrop : (num.data.drop (firstChunkLength num.data.length)).length =
      15 * ((num.data.length - firstChunkLength num.data.length) / 15) := by
    rw [List.length_drop]
    unfold firstChunkLength at hmod ⊢
    split at hmod <;> split <;> omega
  rw [parseInt32Go_spec _ _ _ hdrop]
  conv_rhs =>
    rw [← List.take_append_drop (firstChunkLength num.data.length) num.data]
  rw [decimalValue_append]

/-- C8: for every decimal digit string `s` (arbitrary length, no sign),
`parseInt32 s` is computed by splitting `s` into 15-digit chunks and
combining them left to right with a wrapping multiply by 10 ^ 15 plus the
chunk value (that is the definition of `parseInt32` above), and the result
equals the integer denoted by `s` reduced modulo 2 ^ 32 and reinterpreted
as a signed 32-bit integer, i.e. `toInt32 (decimalValue s.data)`; in
particular `parseInt32 "4294967296" = 0` and
`parseInt32 "2147483648" = -2147483648`. -/
theorem claim_C8 :
    (∀ s : String, s.data.all Char.isDigit = true →
      parseInt32 s = toInt32 (decimalValue s.data)) ∧
    parseInt32 "4294967296" = 0 ∧
    parseInt32 "2147483648" = -2147483648 :=
  ⟨fun s _ => parseInt32_eq_toInt32_decimalValue s, by decide, by decide⟩

/-- Witness for C8, applying the universal part at a 20-digit input. -/
theorem claim_C8_witness :
    ("12345678901234567890".data.all Char.isDigit = true) ∧
    parseInt32 "12345678901234567890" =
      toInt32 (decimalValue "12345678901234567890".data) :=
  ⟨by decide, claim_C8.1 "12345678901234567890" (by decide)⟩

/-- C7 (code bug): the stale lexer revision kept at `src/lexer.js:74`
computes a number token's value with JavaScript `parseInt`, whose value on
this digit string is its exact decimal value 2147483648, not the 32-bit
wraparound value; the claim, the released lexer (modelled by `tokenize`
here), the repository's own test `test/lexer.test.js:80-82` and CHANGELOG
0.1.1 fix #1 all require the chunked `parseInt32`, which yields
-2147483648. -/
theorem claim_C7 :
    decimalValue "2147483648".data = 2147483648 ∧
    parseInt32 "2147483648" = -2147483648 ∧
    tokenize "2147483648" =
      Except.ok [Token.number 0 "2147483648" (-2147483648)] ∧
    (2147483648 : Int) ≠ (-2147483648 : Int) :=
  ⟨by decide, by decide, by decide, by decide⟩

/-- C1 (code bug): the `/` case of `interpretBinaryOp`
(`src/interpreter.js:156-161`) returns 0 for a zero divisor and otherwise
the quotient truncated toward zero, matching all of the claim's examples;
but, contrary to the claim (and to the function's own `Int32` return
annotation), it applies no `toInt32` coercion to the quotient, so the one
int32 operand pair whose truncated quotient overflows int32,
a = -2147483648 and b = -1, produces 2147483648 instead of the wrapped
value -2147483648. -/
theorem claim_C1 :
    (∀ a : Int, interpretBinaryOp "/" a 0 = Except.ok 0) ∧
    (∀ a b : Int, b ≠ 0 →
      interpretBinaryOp "/" a b = Except.ok (Int.tdiv a b)) ∧
    interpret "45/2" emptyEnvironment = Except.ok 22 ∧
    interpret "(-45)/2" emptyEnvironment = Except.ok (-22) ∧
    interpret "45/(-2)" emptyEnvironment = Except.ok (-22) ∧
    interpret "(-45)/(-2)" emptyEnvironment = Except.ok 22 ∧
    interpret "7/0" emptyEnvironment = Except.ok 0 ∧
    interpretBinaryOp "/" (-2147483648) (-1) = Except.ok 2147483648 ∧
    interpret "(0-2147483647-1)/(0-1)" emptyEnvironment = Except.ok 2147483648 ∧
    toInt32 2147483648 = -2147483648 ∧
    isInt32 2147483648 = false := by
  refine ⟨fun a => rfl, fun a b h => ?_, by decide, by decide, by decide, by decide,
    by decide, by decide, by decide, by decide, by decide⟩
  unfold interpretBinaryOp
  simp [h]

/-- Witness for C1, applying the nonzero-divisor part at 45 / 2. -/
theorem claim_C1_witness :
    ((2 : Int) ≠ 0) ∧ interpretBinaryOp "/" 45 2 = Except.ok (Int.tdiv 45 2) :=
  ⟨by decide, claim_C1.2.1 45 2 (by decide)⟩

/-- C2: on int32 operands, `+`, `-` and `*` evaluate to the wrapped 32-bit
result (`*` via `Math.imul`, the low 32 bits of the exact product) and
unary `-` evaluates to the wrapped negation; `interpret "2147483647+1"`
gives -2147483648 and negating -2147483648 gives -2147483648 again. The
`100000*100000` conjunct exercises a product whose low 32 bits differ
from the mathematical product. -/
theorem claim_C2 :
    (∀ a b : Int, isInt32 a = true → isInt32 b = true →
      interpretBinaryOp "+" a b = Except.ok (toInt32 (a + b)) ∧
      interpretBinaryOp "-" a b = Except.ok (toInt32 (a - b)) ∧
      interpretBinaryOp "*" a b = Except.ok (toInt32 (a * b))) ∧
    (∀ (env : InterpreterEnvironment) (e : Ast) (v : Int),
      interpretExpression e env = Except.ok v →
      interpretExpression (Ast.unaryOp "-" e) env = Except.ok (toInt32 (-v))) ∧
    interpret "2147483647+1" emptyEnvironment = Except.ok (-2147483648) ∧
    interpretExpression (Ast.unaryOp "-" (Ast.number (-2147483648))) emptyEnvironment =
      Except.ok (-2147483648) ∧
    interpret "100000*100000" emptyEnvironment = Except.ok 1410065408 := by
  refine ⟨fun a b _ _ => ⟨rfl, rfl, ?_⟩, fun env e v h => ?_, by decide, by decide, by decide⟩
  · show Except.ok (imul a b) = Except.ok (toInt32 (a * b))
    rw [imul_eq_toInt32_mul]
  · have hu : interpretExpression (Ast.unaryOp "-" e) env =
        match interpretExpression e env with
        | Except.error er => Except.error er
        | Except.ok v => Except.ok (toInt32 (-v)) := rfl
    rw [hu, h]

/-- Witness for C2, applying the wrapped-arithmetic part at 3 and 5 and
the wrapped-negation part at the number node 4. -/
theorem claim_C2_witness :
    (isInt32 3 = true) ∧ (isInt32 5 = true) ∧
    interpretBinaryOp "+" 3 5 = Except.ok (toInt32 (3 + 5)) ∧
    interpretBinaryOp "*" 3 5 = Except.ok (toInt32 (3 * 5)) ∧
    interpretExpression (Ast.unaryOp "-" (Ast.number 4)) emptyEnvironment =
      Except.ok (toInt32 (-4)) :=
  ⟨by decide, by decide, (claim_C2.1 3 5 (by decide) (by decide)).1,
    (claim_C2.1 3 5 (by decide) (by decide)).2.2,
    claim_C2.2.1 emptyEnvironment (Ast.number 4) 4 rfl⟩

/-- C3: the conditional operator is parsed at the primary level, so it
binds tighter than arithmetic and unary minus, and it chains
left-associatively: `a?b:c?d:e` parses as `(a?b:c)?d:e`, `0?1:2*3+4`
parses as `((0?1:2)*3)+4` and evaluates to 10, and `-1?2:3` parses as
`-(1?2:3)`. -/
theorem claim_C3 :
    parse "a?b:c?d:e" = Except.ok (Ast.conditional
      (Ast.conditional (Ast.identifier "a") (Ast.identifier "b") (Ast.identifier "c"))
      (Ast.identifier "d") (Ast.identifier "e")) ∧
    parse "0?1:2*3+4" = Except.ok (Ast.binaryOp "+"
      (Ast.binaryOp "*"
        (Ast.conditional (Ast.number 0) (Ast.number 1) (Ast.number 2))
        (Ast.number 3))
      (Ast.number 4)) ∧
    interpret "0?1:2*3+4" emptyEnvironment = Except.ok 10 ∧
    parse "-1?2:3" = Except.ok (Ast.unaryOp "-"
      (Ast.conditional (Ast.number 1) (Ast.number 2) (Ast.number 3))) :=
  ⟨by decide, by decide, by decide, by decide⟩

/-- C4: binary expressions are parsed by precedence climbing over the
fixed table (`* /` at 2, `+ -` at 1, comparisons at 0); equal precedence
groups left-associatively and higher precedence binds tighter, for any
operand values: `1+2+3` parses as `(1+2)+3`, `25+2*9` parses as
`25+(2*9)` and evaluates to 43. -/
theorem claim_C4 :
    BINARY_OPERATOR_PRECEDENCE "*" = some 2 ∧
    BINARY_OPERATOR_PRECEDENCE "/" = some 2 ∧
    BINARY_OPERATOR_PRECEDENCE "+" = some 1 ∧
    BINARY_OPERATOR_PRECEDENCE "-" = some 1 ∧
    BINARY_OPERATOR_PRECEDENCE "==" = some 0 ∧
    BINARY_OPERATOR_PRECEDENCE "!=" = some 0 ∧
    BINARY_OPERATOR_PRECEDENCE "<" = some 0 ∧
    BINARY_OPERATOR_PRECEDENCE ">" = some 0 ∧
    BINARY_OPERATOR_PRECEDENCE "<=" = some 0 ∧
    BINARY_OPERATOR_PRECEDENCE ">=" = some 0 ∧
    parse "1+2+3" = Except.ok (Ast.binaryOp "+"
      (Ast.binaryOp "+" (Ast.number 1) (Ast.number 2)) (Ast.number 3)) ∧
    parse "25+2*9" = Except.ok (Ast.binaryOp "+" (Ast.number 25)
      (Ast.binaryOp "*" (Ast.number 2) (Ast.number 9))) ∧
    interpret "25+2*9" emptyEnvironment = Except.ok 43 ∧
    (∀ a b c : Int, parseExpression 40
        [Token.number 0 "" a, Token.operator 1 "+", Token.number 2 "" b,
          Token.operator 3 "+", Token.number 4 "" c] 0 =
      Except.ok (Ast.binaryOp "+"
        (Ast.binaryOp "+" (Ast.number a) (Ast.number b)) (Ast.number c), [])) ∧
    (∀ a b c : Int, parseExpression 40
        [Token.number 0 "" a, Token.operator 1 "+", Token.number 2 "" b,
          Token.operator 3 "*", Token.number 4 "" c] 0 =
      Except.ok (Ast.binaryOp "+" (Ast.number a)
        (Ast.binaryOp "*" (Ast.number b) (Ast.number c)), [])) ∧
    (∀ a b c : Int, parseExpression 40
        [Token.number 0 "" a, Token.operator 1 "*", Token.number 2 "" b,
          Token.operator 3 "+", Token.number 4 "" c] 0 =
      Except.ok (Ast.binaryOp "+"
        (Ast.binaryOp "*" (Ast.number a) (Ast.number b)) (Ast.number c), [])) ∧
    (∀ a b c : Int, parseExpression 40
        [Token.number 0 "" a, Token.operator 1 "<", Token.number 2 "" b,
          Token.operator 3 "<", Token.number 4 "" c] 0 =
      Except.ok (Ast.binaryOp "<"
        (Ast.binaryOp "<" (Ast.number a) (Ast.number b)) (Ast.number c), [])) :=
  ⟨rfl, rfl, rfl, rfl, rfl, rfl, rfl, rfl, rfl, rfl, by decide, by decide, by decide,
    fun a b c => rfl, fun a b c => rfl, fun a b c => rfl, fun a b c => rfl⟩

/-- C9 counterexample: the claim says a parenthesized expression is
explicitly disallowed as the first argument before a dot-code and must
raise a SyntaxError, but the parser accepts it —
`AstParenthesizedExpression` extends `AstPrimaryExpression`, so
`temp((5==3).woon)` parses successfully into a reference-function call
whose reference is the parenthesized comparison, raising no error. -/
theorem claim_C9_counterexample :
    parse "temp((5==3).woon)" = Except.ok (Ast.refFunctionCallExpr "temp"
      (Ast.parenthesized (Ast.binaryOp "==" (Ast.number 5) (Ast.number 3)))
      "woon" none) ∧
    (∀ e : Err, parse "temp((5==3).woon)" ≠ Except.error e) := by
  have h : parse "temp((5==3).woon)" = Except.ok (Ast.refFunctionCallExpr "temp"
      (Ast.parenthesized (Ast.binaryOp "==" (Ast.number 5) (Ast.number 3)))
      "woon" none) := by decide
  exact ⟨h, fun e he => by rw [h] at he; exact Except.noConfusion he⟩

/-- C9 as amended: when a call's first argument expression is followed by
a dot-code, the parser accepts that first expression exactly when it is a
primary expression — Number, Identifier, FunctionCall, RefFunctionCall,
or a parenthesized expression — and rejects a binary, conditional or
unary first expression with a SyntaxError whose message cites the
disallowed expression's position (the position of its first token). -/
theorem claim_C9 :
    (∀ n : Int, (Ast.number n).isPrimaryExpression = true) ∧
    (∀ name : String, (Ast.identifier name).isPrimaryExpression = true) ∧
    (∀ name a₁ a₂, (Ast.functionCall name a₁ a₂).isPrimaryExpression = true) ∧
    (∀ name r c₁ c₂, (Ast.refFunctionCall name r c₁ c₂).isPrimaryExpression = true) ∧
    (∀ name r c₁ c₂, (Ast.refFunctionCallExpr name r c₁ c₂).isPrimaryExpression = true) ∧
    (∀ e, (Ast.parenthesized e).isPrimaryExpression = true) ∧
    (∀ op l r, (Ast.binaryOp op l r).isPrimaryExpression = false) ∧
    (∀ op e, (Ast.unaryOp op e).isPrimaryExpression = false) ∧
    (∀ c t f, (Ast.conditional c t f).isPrimaryExpression = false) ∧
    parse "funcname(100*200.test)" =
      Except.error (Err.synErr (disallowedExpressionMessage 9 "funcname")) ∧
    parse "funcname(1?2:3.test)" =
      Except.error (Err.synErr (disallowedExpressionMessage 9 "funcname")) ∧
    parse "funcname(-5.test)" =
      Except.error (Err.synErr (disallowedExpressionMessage 9 "funcname")) ∧
    parse "func(12.clc1)" =
      Except.ok (Ast.refFunctionCallExpr "func" (Ast.number 12) "clc1" none) ∧
    parse "func(foo.bar)" =
      Except.ok (Ast.refFunctionCallExpr "func" (Ast.identifier "foo") "bar" none) ∧
    parse "f(g(1,2).c)" = Except.ok (Ast.refFunctionCallExpr "f"
      (Ast.functionCall "g" (Ast.number 1) (Ast.number 2)) "c" none) ∧
    parse "temp((1<2).foo)" = Except.ok (Ast.refFunctionCallExpr "temp"
      (Ast.parenthesized (Ast.binaryOp "<" (Ast.number 1) (Ast.number 2)))
      "foo" none) :=
  ⟨fun _ => rfl, fun _ => rfl, fun _ _ _ => rfl, fun _ _ _ _ => rfl,
    fun _ _ _ _ => rfl, fun _ => rfl, fun _ _ _ => rfl, fun _ _ => rfl,
    fun _ _ _ => rfl, by decide, by decide, by decide, by decide, by decide,
    by decide, by decide⟩

/-- C5: a conditional evaluates its condition first and then exactly one
branch — nonzero selects the true branch, zero the false branch — and the
unselected branch is never evaluated, so a throwing environment provider
reachable only through the unselected branch cannot raise: `1?2:boom`
and `0?boom:7` succeed in an environment whose only identifier `boom`
always throws, while evaluating `boom` itself (or selecting it, as in
`1?boom:7`) propagates the annotated error. -/
theorem claim_C5 :
    (∀ (env : InterpreterEnvironment) (c t f : Ast),
      interpretExpression (Ast.conditional c t f) env =
        match interpretExpression c env with
        | Except.error e => Except.error e
        | Except.ok v =>
          if v ≠ 0 then interpretExpression t env else interpretExpression f env) ∧
    (∀ (env : InterpreterEnvironment) (c t f : Ast) (v : Int),
      interpretExpression c env = Except.ok v → v ≠ 0 →
      interpretExpression (Ast.conditional c t f) env = interpretExpression t env) ∧
    (∀ (env : InterpreterEnvironment) (c t f : Ast),
      interpretExpression c env = Except.ok 0 →
      interpretExpression (Ast.conditional c t f) env = interpretExpression f env) ∧
    interpret "1?2:boom" boomEnvironment = Except.ok 2 ∧
    interpret "0?boom:7" boomEnvironment = Except.ok 7 ∧
    interpret "1?boom:7" boomEnvironment =
      Except.error (Err.externalErr "boom (caused while evaluating identifier \"boom)\"") ∧
    interpretExpression (Ast.identifier "boom") boomEnvironment =
      Except.error (Err.externalErr "boom (caused while evaluating identifier \"boom)\"") := by
  refine ⟨fun env c t f => rfl, fun env c t f v h hv => ?_, fun env c t f h => ?_,
    by decide, by decide, by decide, by decide⟩
  · have hu : interpretExpression (Ast.conditional c t f) env =
        match interpretExpression c env with
        | Except.error e => Except.error e
        | Except.ok v =>
          if v ≠ 0 then interpretExpression t env else interpretExpression f env := rfl
    rw [hu, h]
    simp [hv]
  · have hu : interpretExpression (Ast.conditional c t f) env =
        match interpretExpression c env with
        | Except.error e => Except.error e
        | Except.ok v =>
          if v ≠ 0 then interpretExpression t env else interpretExpression f env := rfl
    rw [hu, h]
    simp

/-- Witness for C5: the selected-branch rules applied concretely, with
the throwing `boom` identifier in the unselected branch. -/
theorem claim_C5_witness :
    (interpretExpression (Ast.number 1) boomEnvironment = Except.ok 1) ∧
    ((1 : Int) ≠ 0) ∧
    interpretExpression
        (Ast.conditional (Ast.number 1) (Ast.number 2) (Ast.identifier "boom"))
        boomEnvironment =
      interpretExpression (Ast.number 2) boomEnvironment :=
  ⟨rfl, by decide,
    claim_C5.2.1 boomEnvironment (Ast.number 1) (Ast.number 2)
      (Ast.identifier "boom") 1 rfl (by decide)⟩

theorem append_ne_of_data_ne (p₁ p₂ : String) (h : p₁.data ≠ p₂.data)
    (n : String) : p₁ ++ n ≠ p₂ ++ n := by
  intro he
  apply h
  have hd : (p₁ ++ n).data = (p₂ ++ n).data := congrArg String.data he
  rw [String.data_append, String.data_append] at hd
  exact List.append_cancel_right hd

/-- C6: identifier, function and reference-function names are resolved by
exact own-membership in the corresponding environment table only (the
embedding's tables contain exactly the caller-registered bindings, the
`hasOwnProperty` guard of the source), so default object members such as
`hasOwnProperty`, `toString` or `valueOf` are never visible; when a name
is absent, evaluation fails with an `interpErr` naming the symbol and its
role, and the four role messages are pairwise distinct for any name. -/
theorem claim_C6 :
    (∀ (env : InterpreterEnvironment) (name : String),
      lookupOwn env.identifiers name = none →
      interpretExpression (Ast.identifier name) env =
        Except.error (Err.interpErr ("Unknown identifier: " ++ name))) ∧
    (∀ (env : InterpreterEnvironment) (name : String) (a₁ a₂ : Ast),
      lookupOwn env.functions name = none →
      interpretExpression (Ast.functionCall name a₁ a₂) env =
        Except.error (Err.interpErr ("Unknown function: " ++ name))) ∧
    (∀ (env : InterpreterEnvironment) (name ref c₁ : String),
      lookupOwn env.referenceFunctions name = none →
      interpretExpression (Ast.refFunctionCall name ref c₁ none) env =
        Except.error (Err.interpErr
          ("Unknown single-qualifier reference function: " ++ name))) ∧
    (∀ (env : InterpreterEnvironment) (name ref c₁ c₂ : String),
      lookupOwn env.referenceFunctions2Q name = none →
      interpretExpression (Ast.refFunctionCall name ref c₁ (some c₂)) env =
        Except.error (Err.interpErr
          ("Unknown double-qualifier reference function: " ++ name))) ∧
    (∀ name : String,
      ("Unknown identifier: " ++ name ≠ "Unknown function: " ++ name) ∧
      ("Unknown identifier: " ++ name ≠
        "Unknown single-qualifier reference function: " ++ name) ∧
      ("Unknown identifier: " ++ name ≠
        "Unknown double-qualifier reference function: " ++ name) ∧
      ("Unknown function: " ++ name ≠
        "Unknown single-qualifier reference function: " ++ name) ∧
      ("Unknown function: " ++ name ≠
        "Unknown double-qualifier reference function: " ++ name) ∧
      ("Unknown single-qualifier reference function: " ++ name ≠
        "Unknown double-qualifier reference function: " ++ name)) ∧
    interpret "hasOwnProperty" emptyEnvironment =
      Except.error (Err.interpErr "Unknown identifier: hasOwnProperty") ∧
    interpret "toString" emptyEnvironment =
      Except.error (Err.interpErr "Unknown identifier: toString") ∧
    interpret "nosuchfn(1,2)" emptyEnvironment =
      Except.error (Err.interpErr "Unknown function: nosuchfn") ∧
    interpret "valueOf('x'.a)" emptyEnvironment =
      Except.error (Err.interpErr
        "Unknown single-qualifier reference function: valueOf") ∧
    interpret "valueOf('x'.a.b)" emptyEnvironment =
      Except.error (Err.interpErr
        "Unknown double-qualifier reference function: valueOf") := by
  refine ⟨fun env name h => ?_, fun env name a₁ a₂ h => ?_, fun env name ref c₁ h => ?_,
    fun env name ref c₁ c₂ h => ?_,
    fun name => ⟨append_ne_of_data_ne _ _ (by decide) name,
      append_ne_of_data_ne _ _ (by decide) name,
      append_ne_of_data_ne _ _ (by decide) name,
      append_ne_of_data_ne _ _ (by decide) name,
      append_ne_of_data_ne _ _ (by decide) name,
      append_ne_of_data_ne _ _ (by decide) name⟩,
    by decide, by decide, by decide, by decide, by decide⟩
  · have hu : interpretExpression (Ast.identifier name) env =
        match lookupOwn env.identifiers name with
        | none => Except.error (Err.interpErr ("Unknown identifier: " ++ name))
        | some (IdentifierValue.num v) => Except.ok (toInt32 v)
        | some (IdentifierValue.func provider) =>
          match provider () with
          | Except.ok v => Except.ok (toInt32 v)
          | Except.error msg => Except.error (Err.externalErr
              (msg ++ " (caused while evaluating identifier \"" ++ name ++ ")\"")) := rfl
    rw [hu, h]
  · have hu : interpretExpression (Ast.functionCall name a₁ a₂) env =
        match lookupOwn env.functions name with
        | none => Except.error (Err.interpErr ("Unknown function: " ++ name))
        | some func =>
          match interpretExpression a₁ env with
          | Except.error e => Except.error e
          | Except.ok argValue1 =>
            match interpretExpression a₂ env with
            | Except.error e => Except.error e
            | Except.ok argValue2 =>
              match func argValue1 argValue2 with
              | Except.ok v => Except.ok (toInt32 v)
              | Except.error msg => Except.error (Err.externalErr
                  (msg ++ " (caused while calling function \"" ++ name ++ ")\"")) := rfl
    rw [hu, h]
  · have hu : interpretExpression (Ast.refFunctionCall name ref c₁ none) env =
        match lookupOwn env.referenceFunctions name with
        | none => Except.error (Err.interpErr
            ("Unknown single-qualifier reference function: " ++ name))
        | some func => callReferenceFunction name func (RefValue.str ref) c₁ := rfl
    rw [hu, h]
  · have hu : interpretExpression (Ast.refFunctionCall name ref c₁ (some c₂)) env =
        match lookupOwn env.referenceFunctions2Q name with
        | none => Except.error (Err.interpErr
            ("Unknown double-qualifier reference function: " ++ name))
        | some func => callReferenceFunction2Q name func (RefValue.str ref) c₁ c₂ := rfl
    rw [hu, h]

/-- Witness for C6, applying the unknown-identifier rule to `valueOf` in
the empty environment. -/
theorem claim_C6_witness :
    (lookupOwn emptyEnvironment.identifiers "valueOf" = none) ∧
    interpretExpression (Ast.identifier "valueOf") emptyEnvironment =
      Except.error (Err.interpErr ("Unknown identifier: " ++ "valueOf")) :=
  ⟨rfl, claim_C6.1 emptyEnvironment "valueOf" rfl⟩

theorem matchTokenAt_whitespace (c : Char) (rest : List Char) (pos : Nat)
    (h : isWhitespaceChar c = true) : matchTokenAt (c :: rest) pos = Except.ok none := by
  simp only [isWhitespaceChar, Bool.or_eq_true, beq_iff_eq] at h
  rcases h with ((((h | h) | h) | h) | h) | h <;> subst h <;> rfl

theorem takeWhile_eq_self_of_all {p : Char → Bool} :
    ∀ {l : List Char}, l.all p = true → l.takeWhile p = l := by
  intro l
  induction l with
  | nil => intro _; rfl
  | cons c l ih =>
    intro h
    rw [List.all_cons, Bool.and_eq_true] at h
    simp [List.takeWhile_cons, h.1, ih h.2]

theorem tokenizeLoop_whitespace_ok (fuel : Nat) (text : String) (pos : Nat)
    (cs : List Char) (h : cs.all isWhitespaceChar = true) :
    tokenizeLoop (fuel + 1) text pos cs = Except.ok [] := by
  cases cs with
  | nil => simp [tokenizeLoop]
  | cons c cs' =>
    have h' := h
    rw [List.all_cons, Bool.and_eq_true] at h'
    have hm := matchTokenAt_whitespace c cs' pos h'.1
    have htw : (c :: cs').takeWhile isWhitespaceChar = c :: cs' :=
      takeWhile_eq_self_of_all h
    simp only [tokenizeLoop, hm, htw]
    simp [List.drop_length, tokenizeLoop]

theorem tokenizeLoop_error_spec :
    ∀ (fuel : Nat) (text : String) (pos : Nat) (cs : List Char) (msg : String),
      tokenizeLoop fuel text pos cs = Except.error (Err.synErr msg) →
      ∃ (p : Nat) (rest : List Char),
        matchTokenAt rest p = Except.error (Err.synErr msg) ∨
        (matchTokenAt rest p = Except.ok none ∧
          (rest.takeWhile isWhitespaceChar).length = 0 ∧
          msg = cannotParseMessage text p) := by
  intro fuel
  induction fuel with
  | zero =>
    intro text pos cs msg h
    cases cs with
    | nil => simp [tokenizeLoop] at h
    | cons c cs' => simp [tokenizeLoop] at h
  | succ fuel ih =>
    intro text pos cs msg h
    cases cs with
    | nil => simp [tokenizeLoop] at h
    | cons c cs' =>
      simp only [tokenizeLoop] at h
      cases hm : matchTokenAt (c :: cs') pos with
      | error e =>
        rw [hm] at h
        simp only [Except.error.injEq] at h
        rw [h] at hm
        exact ⟨pos, c :: cs', Or.inl hm⟩
      | ok o =>
        cases o with
        | some t =>
          rw [hm] at h
          simp only [] at h
          cases hr : tokenizeLoop fuel text (pos + t.rawValue.length)
              ((c :: cs').drop t.rawValue.length) with
          | error e =>
            rw [hr] at h
            simp only [Except.error.injEq] at h
            rw [h] at hr
            exact ih text (pos + t.rawValue.length) ((c :: cs').drop t.rawValue.length) msg hr
          | ok ts =>
            rw [hr] at h
            exact absurd h (by simp)
        | none =>
          rw [hm] at h
          simp only [] at h
          by_cases hw : ((c :: cs').takeWhile isWhitespaceChar).length ≠ 0
          · rw [if_pos hw] at h
            exact ih text (pos + ((c :: cs').takeWhile isWhitespaceChar).length)
              ((c :: cs').drop ((c :: cs').takeWhile isWhitespaceChar).length) msg h
          · rw [if_neg hw] at h
            simp only [Except.error.injEq, Err.synErr.injEq] at h
            exact ⟨pos, c :: cs', Or.inr ⟨hm, by omega, h.symm⟩⟩

/-- C10: `tokenize` on the empty string, or on whitespace-only input,
returns the empty token sequence without raising; and whenever the
tokenize loop fails with a `D2FSyntaxError`, there is a position at which
either `matchTokenAt` itself threw that error, or no token matched
(`matchTokenAt` returned `none`), no whitespace run matched, and the
error is the `Cannot parse token` failure branch for that position. -/
theorem claim_C10 :
    tokenize "" = Except.ok [] ∧
    tokenize " " = Except.ok [] ∧
    (∀ s : String, s.data.all isWhitespaceChar = true → tokenize s = Except.ok []) ∧
    tokenize "#" = Except.error (Err.synErr (cannotParseMessage "#" 0)) ∧
    (∀ (fuel : Nat) (text : String) (pos : Nat) (cs : List Char) (msg : String),
      tokenizeLoop fuel text pos cs = Except.error (Err.synErr msg) →
      ∃ (p : Nat) (rest : List Char),
        matchTokenAt rest p = Except.error (Err.synErr msg) ∨
        (matchTokenAt rest p = Except.ok none ∧
          (rest.takeWhile isWhitespaceChar).length = 0 ∧
          msg = cannotParseMessage text p)) :=
  ⟨by decide, by decide,
    fun s h => tokenizeLoop_whitespace_ok s.data.length s 0 s.data h,
    by decide, tokenizeLoop_error_spec⟩

/-- Witness for C10: whitespace-only input through the universal part,
and the failure characterization applied to input `#`. -/
theorem claim_C10_witness :
    ("   ".data.all isWhitespaceChar = true) ∧
    tokenize "   " = Except.ok [] ∧
    (∃ (p : Nat) (rest : List Char),
      matchTokenAt rest p = Except.error (Err.synErr (cannotParseMessage "#" 0)) ∨
      (matchTokenAt rest p = Except.ok none ∧
        (rest.takeWhile isWhitespaceChar).length = 0 ∧
        cannotParseMessage "#" 0 = cannotParseMessage "#" p)) :=
  ⟨by decide, claim_C10.2.2.1 "   " (by decide),
    claim_C10.2.2.2.2 2 "#" 0 ['#'] (cannotParseMessage "#" 0) (by decide)⟩

end D2Calc
